import Mathlib

/-!
Shallow embedding of the statlas-content-service spatial handlers.

Coordinates and distances are idealised as rationals.  External library
calls that the service makes — the orb GeoJSON parser and planar
containment test, the Go strconv parsers, and the float haversine
routine — are not code of this repository; they enter the embedding as
explicit function parameters, so every theorem quantifies over them.
Firestore reads are modelled by passing the fetched collection as an
`Except` value: the `ok` payload is the stored collection, the `error`
case is a failed query.
-/

namespace Statlas

/-- Axis-aligned latitude/longitude rectangle, the `bounds` field stored
on every polygon-bearing document. -/
structure Bounds where
  min_lat : ℚ
  max_lat : ℚ
  min_lon : ℚ
  max_lon : ℚ
deriving DecidableEq, Repr

/-- The four-way comparison `min_lat <= lat AND max_lat >= lat AND
min_lon <= lon AND max_lon >= lon` used both by the Firestore bounds
query in `findContainingEntities` and by the inline bounds test in
`isPointOnLand`. -/
def boundsContain (b : Bounds) (lat lon : ℚ) : Bool :=
  decide (b.min_lat ≤ lat) && decide (b.max_lat ≥ lat) &&
    decide (b.min_lon ≤ lon) && decide (b.max_lon ≥ lon)

/-- Result of `geojson.UnmarshalGeometry` as consumed by
`isPointInGeometry`.  A polygon is abstracted by its planar containment
test (the external `planar.PolygonContains`, taking the point in
`(lon, lat)` order as built by `orb.Point`), a multipolygon by the list
of member containment tests, and every other geometry type falls in
`unsupported` (the default branch of the type switch). -/
inductive OrbGeometry where
  | polygon (contains : ℚ → ℚ → Bool)
  | multiPolygon (members : List (ℚ → ℚ → Bool))
  | unsupported

/-- The helper `isPointInGeometry` from the source: empty geometry text
returns false; a parse failure of `geojson.UnmarshalGeometry` (the
`unmarshal` parameter returning `none`) returns false; a `Polygon`
delegates to planar containment; a `MultiPolygon` contains the point iff
some member polygon does; unsupported geometry types return false. -/
def isPointInGeometry (unmarshal : String → Option OrbGeometry)
    (lat lon : ℚ) (geometryJSON : String) : Bool :=
  if geometryJSON = "" then false
  else
    match unmarshal geometryJSON with
    | none => false
    | some (.polygon c) => c lon lat
    | some (.multiPolygon ms) => ms.any (fun c => c lon lat)
    | some .unsupported => false

/-- An administrative-tier document as read by `findContainingEntities`:
`id`, `is_active`, `bounds` and the raw GeoJSON `geometry` string.  A
document whose map lacks a geometry field behaves exactly like one whose
geometry is the empty string (both are skipped by the
`ok && geometryJSON != ""` guard), so a missing field is modelled by
`""`. -/
structure TierDoc where
  id : String
  is_active : Bool
  bounds : Bounds
  geometry : String
deriving DecidableEq, Repr

/-- Stage 1 of `findContainingEntities`: the Firestore query
`is_active == true` conjoined with the four bounds range predicates,
executed over the stored collection. -/
def queryByBounds (collection : List TierDoc) (lat lon : ℚ) : List TierDoc :=
  collection.filter (fun d => d.is_active && boundsContain d.bounds lat lon)

/-- The two-stage `findContainingEntities` (the efficient version using
composite indexes): stage 1 is the indexed bounds pre-filter, stage 2
keeps the candidates whose non-empty geometry passes
`isPointInGeometry`.  A failed query logs and returns the empty result
list. -/
def findContainingEntities (unmarshal : String → Option OrbGeometry)
    (storeResult : Except String (List TierDoc)) (lat lon : ℚ) : List TierDoc :=
  match storeResult with
  | .error _ => []
  | .ok collection =>
      (queryByBounds collection lat lon).filter
        (fun d => d.geometry != "" && isPointInGeometry unmarshal lat lon d.geometry)

/-- Reference resolver from the spec: the active documents of the tier
whose geometry contains the point, by direct scan with no bounds
pre-filter. -/
def bruteForceContaining (unmarshal : String → Option OrbGeometry)
    (collection : List TierDoc) (lat lon : ℚ) : List TierDoc :=
  collection.filter
    (fun d => d.is_active && isPointInGeometry unmarshal lat lon d.geometry)

/-- A `land_polygons` document as read by `isPointOnLand`.  The handler
reads the raw document map, so the geometry and bounds fields may be
absent. -/
structure LandDoc where
  is_active : Bool
  geometry : Option String
  bounds : Option Bounds
deriving Repr

/-- The source `isPointOnLand`: fetch all active land polygons (a failed
query propagates the error), then return true iff some document has a
geometry field and its bounds rectangle contains the point.  The stored
geometry is never tested — the source marks the exact point-in-polygon
test as a placeholder and uses the bounds heuristic instead. -/
def isPointOnLand (landQuery : Except String (List LandDoc))
    (lat lon : ℚ) : Except String Bool :=
  match landQuery with
  | .error e => .error e
  | .ok docs =>
      .ok ((docs.filter (fun d => d.is_active)).any (fun d =>
        match d.geometry with
        | none => false
        | some _ =>
          match d.bounds with
          | none => false
          | some b => boundsContain b lat lon))

/-- A `coastlines` document as read by `calculateDistanceToCoast`; only
`is_active` and the optional `bounds` field are consumed. -/
structure CoastDoc where
  is_active : Bool
  bounds : Option Bounds
deriving Repr

/-- One iteration of the coastline scan in `calculateDistanceToCoast`:
skip documents without bounds or whose bounds, expanded by 2 degrees in
each direction, do not enclose the point; otherwise compare the
haversine distance to the bounds centroid against the running minimum. -/
def coastStep (hav : ℚ → ℚ → ℚ → ℚ → ℚ) (lat lon : ℚ)
    (acc : ℚ × Option (ℚ × ℚ)) (d : CoastDoc) : ℚ × Option (ℚ × ℚ) :=
  match d.bounds with
  | none => acc
  | some b =>
    if lat < b.min_lat - 2 || lat > b.max_lat + 2 ||
        lon < b.min_lon - 2 || lon > b.max_lon + 2 then acc
    else
      let centerLat := (b.min_lat + b.max_lat) / 2
      let centerLon := (b.min_lon + b.max_lon) / 2
      let dist := hav lat lon centerLat centerLon
      if dist < acc.1 then (dist, some (centerLat, centerLon)) else acc

/-- The source `calculateDistanceToCoast`: fetch all active coastlines
(a failed query propagates the error), fold the scan starting from the
sentinel minimum 99999999 with no closest point, and fail with
`no coastlines found` when no candidate updated the minimum.  The
`hav` parameter is the float `haversineDistance` routine, modelled as an
unspecified function. -/
def calculateDistanceToCoast (hav : ℚ → ℚ → ℚ → ℚ → ℚ)
    (coastQuery : Except String (List CoastDoc)) (lat lon : ℚ) :
    Except String (ℚ × (ℚ × ℚ)) :=
  match coastQuery with
  | .error e => .error e
  | .ok docs =>
      let r := (docs.filter (fun d => d.is_active)).foldl
        (coastStep hav lat lon) ((99999999 : ℚ), none)
      match r.2 with
      | none => .error "no coastlines found"
      | some p => .ok (r.1, p)

/-- The source `classifyPoint`: try the land-polygon test; if it fails,
fall back to the coastline distance (propagating its error) and call the
point land when that distance is below 1 km; if the land test succeeds,
compute the coastline distance and silently substitute the default
10.0 km when that computation fails. -/
def classifyPoint (hav : ℚ → ℚ → ℚ → ℚ → ℚ)
    (landQuery : Except String (List LandDoc))
    (coastQuery : Except String (List CoastDoc))
    (lat lon : ℚ) : Except String (Bool × ℚ) :=
  match isPointOnLand landQuery lat lon with
  | .error _ =>
    match calculateDistanceToCoast hav coastQuery lat lon with
    | .error e => .error e
    | .ok (d, _) => .ok (decide (d < 1), d)
  | .ok isLand =>
    match calculateDistanceToCoast hav coastQuery lat lon with
    | .error _ => .ok (isLand, 10)
    | .ok (d, _) => .ok (isLand, d)

/-- The source `determineGridResolution`: land points get 1x1km (the
100x100m urban refinement is an unimplemented TODO), ocean points get
100x100km beyond 1000 km from the coast and 10x10km otherwise. -/
def determineGridResolution (isLand : Bool) (distanceToCoast : ℚ) : String :=
  if isLand then "1x1km"
  else if distanceToCoast > 1000 then "100x100km"
  else "10x10km"

/-- Shape of an HTTP handler outcome: a 200 response with a typed JSON
body, or an `http.Error` with status 400 and a short message. -/
inductive HttpResp (α : Type) where
  | ok (body : α)
  | badRequest (msg : String)
deriving DecidableEq, Repr

/-- One element of the `results` array built by `batchClassifyHandler`:
either a per-point error object, or a classification carrying the
`type` string (`land` or `ocean`), the distance to coast and the grid
resolution. -/
inductive BatchEntry where
  | failure (msg : String)
  | classified (typ : String) (distance_to_coast_km : ℚ) (grid_resolution : String)
deriving DecidableEq, Repr

/-- Body of the per-point loop in `batchClassifyHandler`: out-of-range
coordinates yield an `Invalid coordinates` error entry, a failed
`classifyPoint` yields a `Classification failed` error entry, and
otherwise the point is classified and its grid resolution derived. -/
def classifyEntryOf (hav : ℚ → ℚ → ℚ → ℚ → ℚ)
    (landQuery : Except String (List LandDoc))
    (coastQuery : Except String (List CoastDoc))
    (p : ℚ × ℚ) : BatchEntry :=
  if p.1 < -90 || p.1 > 90 || p.2 < -180 || p.2 > 180 then
    .failure "Invalid coordinates"
  else
    match classifyPoint hav landQuery coastQuery p.1 p.2 with
    | .error _ => .failure "Classification failed"
    | .ok (isLand, d) =>
        .classified (if isLand then "land" else "ocean") d
          (determineGridResolution isLand d)

/-- The source `batchClassifyHandler`.  The request body is the decoded
JSON points list (`none` models a body the JSON decoder rejects).  An
undecodable body, an empty points list, and more than 1000 points each
fail the whole request with a 400; otherwise every point is processed in
order by `classifyEntryOf` and the response is a 200 (its `count` field
equals the length of the returned list). -/
def batchClassifyHandler (hav : ℚ → ℚ → ℚ → ℚ → ℚ)
    (landQuery : Except String (List LandDoc))
    (coastQuery : Except String (List CoastDoc))
    (body : Option (List (ℚ × ℚ))) : HttpResp (List BatchEntry) :=
  match body with
  | none => .badRequest "Invalid JSON body"
  | some points =>
    if points.length = 0 then .badRequest "No points provided"
    else if points.length > 1000 then .badRequest "Too many points (max 1000)"
    else .ok (points.map (classifyEntryOf hav landQuery coastQuery))

/-- One element of the `points` array of a `batch-lookup` request. -/
structure PointLookup where
  lat : ℚ
  lon : ℚ
  square_id : String
deriving DecidableEq, Repr

/-- One element of the `results` array of a `batch-lookup` response. -/
structure SquareEnrichment where
  square_id : String
  boundary_tags : List String
  resolution : String
  landmarks_nearby : List String
deriving DecidableEq, Repr

/-- A mock boundary record produced by `getMockBoundariesForPoint`; the
handler reads the `name` and `resolution_requirement` fields. -/
structure MockBoundary where
  id : String
  name : String
  typ : String
  level : ℕ
  resolution_requirement : Option String
deriving DecidableEq, Repr

/-- The source `getMockBoundariesForPoint`: nested rectangle tests
emitting USA, New York, New York City and Manhattan records. -/
def getMockBoundariesForPoint (lat lon : ℚ) : List MockBoundary :=
  if 25 ≤ lat ∧ lat ≤ 49 ∧ -125 ≤ lon ∧ lon ≤ -66 then
    ⟨"usa", "United States", "country", 0, some "1km"⟩ ::
      (if 40.4 ≤ lat ∧ lat ≤ 45 ∧ -79.8 ≤ lon ∧ lon ≤ -71.8 then
        ⟨"ny_usa", "New York", "state", 1, some "100m"⟩ ::
          (if 40.4 ≤ lat ∧ lat ≤ 40.9 ∧ -74.3 ≤ lon ∧ lon ≤ -73.7 then
            ⟨"nyc_ny_usa", "New York City", "city", 2, some "100m"⟩ ::
              (if 40.68 ≤ lat ∧ lat ≤ 40.88 ∧ -74.05 ≤ lon ∧ lon ≤ -73.90 then
                [⟨"manhattan_core", "Manhattan", "borough", 3, some "100m"⟩]
              else [])
          else [])
      else [])
  else []

/-- The source `getMockLandmarksForPoint`: three fixed landmark ids in
the New York City rectangle, none elsewhere. -/
def getMockLandmarksForPoint (lat lon : ℚ) : List String :=
  if 40.4 ≤ lat ∧ lat ≤ 40.9 ∧ -74.3 ≤ lon ∧ lon ≤ -73.7 then
    ["statue_of_liberty", "empire_state_building", "central_park"]
  else []

/-- Body of the per-point loop in `batchLookupBoundariesHandler`: one
pass over the mock boundaries appends the lower-cased name to the tags
and lets the last non-nil `resolution_requirement` override the default
`1km`, then the nearby landmark ids are attached. -/
def enrichPoint (p : PointLookup) : SquareEnrichment :=
  let boundaries := getMockBoundariesForPoint p.lat p.lon
  let acc := boundaries.foldl
    (fun (acc : List String × String) b =>
      (acc.1 ++ [b.name.toLower],
       match b.resolution_requirement with
       | some s => s
       | none => acc.2))
    ([], "1km")
  { square_id := p.square_id
    boundary_tags := acc.1
    resolution := acc.2
    landmarks_nearby := getMockLandmarksForPoint p.lat p.lon }

/-- The source `batchLookupBoundariesHandler`: an undecodable body fails
the whole request with 400, otherwise every point is enriched in order
and the response is a 200 carrying one result per input point. -/
def batchLookupBoundariesHandler (body : Option (List PointLookup)) :
    HttpResp (List SquareEnrichment) :=
  match body with
  | none => .badRequest "Invalid request body"
  | some points => .ok (points.map enrichPoint)

/-- One element of the `boundaries` array of the containing-boundaries
response: a tier label and the entities of that tier containing the
point. -/
structure BoundaryGroup where
  typ : String
  entities : List TierDoc
deriving DecidableEq, Repr

/-- Response body of `getBoundariesContainingHandler`. -/
structure ContainingResponse where
  lat : ℚ
  lon : ℚ
  boundaries : List BoundaryGroup
  count : ℕ
deriving DecidableEq, Repr

/-- The four tier checks of `getBoundariesContainingHandler`: each tier
contributes a group exactly when `findContainingEntities` returns a
non-empty list, in the fixed order sovereign states, countries, map
units, map subunits. -/
def containingGroups (unmarshal : String → Option OrbGeometry)
    (sovereigns countries mapUnits mapSubunits : Except String (List TierDoc))
    (lat lon : ℚ) : List BoundaryGroup :=
  (let states := findContainingEntities unmarshal sovereigns lat lon
   if states.length > 0 then [⟨"sovereign_state", states⟩] else []) ++
  (let cs := findContainingEntities unmarshal countries lat lon
   if cs.length > 0 then [⟨"country", cs⟩] else []) ++
  (let units := findContainingEntities unmarshal mapUnits lat lon
   if units.length > 0 then [⟨"map_unit", units⟩] else []) ++
  (let subunits := findContainingEntities unmarshal mapSubunits lat lon
   if subunits.length > 0 then [⟨"map_subunit", subunits⟩] else [])

/-- The source `getBoundariesContainingHandler`.  The two coordinate
parameters are the results of `strconv.ParseFloat` on the raw query
strings (`none` models a parse failure).  A parse failure fails the
request with 400; any parsed pair — the handler performs no range
check — is resolved against all four tiers and answered with a 200. -/
def getBoundariesContainingHandler (unmarshal : String → Option OrbGeometry)
    (sovereigns countries mapUnits mapSubunits : Except String (List TierDoc))
    (latParam lonParam : Option ℚ) : HttpResp ContainingResponse :=
  match latParam with
  | none => .badRequest "Invalid lat parameter"
  | some lat =>
    match lonParam with
    | none => .badRequest "Invalid lon parameter"
    | some lon =>
      let boundaries :=
        containingGroups unmarshal sovereigns countries mapUnits mapSubunits lat lon
      .ok ⟨lat, lon, boundaries, boundaries.length⟩

/-- A `sovereign_states` document as consumed by
`getBulkCountriesHandler`.  The tier-specific metadata fields (ISO
codes, capital, population, area, bounds, flag) are passed through to
the response unchanged and are not read by the dedup logic, so they are
not modelled. -/
structure SovereignState where
  id : String
  name : String
deriving DecidableEq, Repr

/-- A `countries` document as consumed by `getBulkCountriesHandler`;
metadata passthrough fields are omitted as for `SovereignState`. -/
structure Country where
  id : String
  name : String
  sovereign_state_id : String
deriving DecidableEq, Repr

/-- One row of the bulk-countries response, restricted to the fields the
handler computes (the remaining fields are metadata passthrough). -/
structure BulkEntry where
  id : String
  name : String
  typ : String
  is_territory : Bool
  sovereign_state_name : Option String
deriving DecidableEq, Repr

/-- Lookup in the in-memory sovereign map built by the first pass of
`getBulkCountriesHandler`.  The Go map is filled by iteration, so a
later document with the same id overwrites an earlier one; the model
therefore takes the last matching document. -/
def sovereignLookup (sovs : List SovereignState) (sid : String) :
    Option SovereignState :=
  sovs.reverse.find? (fun s => s.id == sid)

/-- The bulk-countries row emitted for a sovereign state: never a
territory, with a null sovereign state name. -/
def sovereignEntry (s : SovereignState) : BulkEntry :=
  ⟨s.id, s.name, "sovereign_state", false, none⟩

/-- The bulk-countries row emitted for a country: it is a territory iff
its `sovereign_state_id` differs from its own id and is non-empty, and
for territories the sovereign state name is resolved from the sovereign
map when present. -/
def countryEntry (sovs : List SovereignState) (c : Country) : BulkEntry :=
  let isTerritory := (c.sovereign_state_id != c.id) && (c.sovereign_state_id != "")
  { id := c.id
    name := c.name
    typ := "country"
    is_territory := isTerritory
    sovereign_state_name :=
      if isTerritory then (sovereignLookup sovs c.sovereign_state_id).map (fun s => s.name)
      else none }

/-- One iteration of the second pass of `getBulkCountriesHandler`: a
country whose id was already processed is skipped, otherwise its row is
appended and its id marked processed. -/
def bulkStep (sovs : List SovereignState)
    (acc : List BulkEntry × List String) (c : Country) :
    List BulkEntry × List String :=
  if acc.2.contains c.id then acc
  else (acc.1 ++ [countryEntry sovs c], acc.2 ++ [c.id])

/-- The dedup logic of `getBulkCountriesHandler` over the fetched active
sovereign states and active countries: the first pass emits every
sovereign state and marks its id processed, the second pass folds
`bulkStep` over the countries; the result is the `countries` array of
the response. -/
def bulkCountries (sovs : List SovereignState) (countries : List Country) :
    List BulkEntry :=
  (countries.foldl (bulkStep sovs)
    (sovs.foldl (fun acc s => (acc.1 ++ [sovereignEntry s], acc.2 ++ [s.id]))
      ([], []))).1

/-- The source `getIntQueryParam`: an absent parameter (the empty
string, as returned by `Query().Get`) or a value rejected by
`strconv.Atoi` (the external `atoi` parameter returning `none`) falls
back to the supplied default. -/
def getIntQueryParam (atoi : String → Option Int)
    (value : String) (defaultValue : Int) : Int :=
  if value = "" then defaultValue
  else
    match atoi value with
    | none => defaultValue
    | some n => n

/-- The source `getFloatQueryParam`: an absent parameter or a value
rejected by `strconv.ParseFloat` (the external `parseFloat` parameter
returning `none`) falls back to the supplied default. -/
def getFloatQueryParam (parseFloat : String → Option ℚ)
    (value : String) (defaultValue : ℚ) : ℚ :=
  if value = "" then defaultValue
  else
    match parseFloat value with
    | none => defaultValue
    | some x => x

/-! Concrete instantiations used by witnesses and counterexamples. -/

/-- A haversine stand-in that reports every distance as 5 km. -/
def hav0 : ℚ → ℚ → ℚ → ℚ → ℚ := fun _ _ _ _ => 5

/-- A GeoJSON parser stand-in that rejects every input. -/
def noParse : String → Option OrbGeometry := fun _ => none

/-- A parser recognising one geometry, the triangle with vertices
(0,0), (1,0), (0,1): it occupies only the corner of the 0..10 bounds
rectangle. -/
def c2unmarshal : String → Option OrbGeometry :=
  fun s =>
    if s = "tri" then
      some (.polygon (fun lon lat =>
        decide (0 ≤ lon) && decide (0 ≤ lat) && decide (lon + lat ≤ 1)))
    else none

/-- An active land polygon whose bounds rectangle is 0..10 in each axis
but whose stored geometry is the small triangle of `c2unmarshal`. -/
def c2doc : LandDoc := ⟨true, some "tri", some ⟨0, 10, 0, 10⟩⟩

/-- An active land polygon containing the origin. -/
def c3land : Except String (List LandDoc) :=
  .ok [⟨true, some "g", some ⟨-1, 1, -1, 1⟩⟩]

/-- An active coastline segment near the origin. -/
def c3coast : Except String (List CoastDoc) := .ok [⟨true, some ⟨0, 1, 0, 1⟩⟩]

/-- A batch with one valid point and one point with latitude 200. -/
def c3points : List (ℚ × ℚ) := [(0, 0), (200, 0)]

/-- The entry list `batchClassifyHandler` produces for `c3points`. -/
def c3entries : List BatchEntry :=
  [.classified "land" 5 "1x1km", .failure "Invalid coordinates"]

/-- A parser recognising one geometry, the square 0 ≤ lon ≤ 10,
0 ≤ lat ≤ 10. -/
def c1unmarshal : String → Option OrbGeometry :=
  fun s =>
    if s = "square" then
      some (.polygon (fun lon lat =>
        decide (0 ≤ lon) && decide (lon ≤ 10) &&
          decide (0 ≤ lat) && decide (lat ≤ 10)))
    else none

/-- A tier fixture: an active match, an inactive match, a distant
document with unparsable geometry, and an active document with empty
geometry. -/
def c1docs : List TierDoc :=
  [⟨"inside", true, ⟨0, 10, 0, 10⟩, "square"⟩,
   ⟨"inactive", false, ⟨0, 10, 0, 10⟩, "square"⟩,
   ⟨"far", true, ⟨20, 30, 20, 30⟩, "bad json"⟩,
   ⟨"empty", true, ⟨0, 10, 0, 10⟩, ""⟩]

/-- A 1000-point batch at the origin. -/
def wpts1000 : List (ℚ × ℚ) := List.replicate 1000 (0, 0)

/-- A 1001-point batch at the origin. -/
def wpts1001 : List (ℚ × ℚ) := List.replicate 1001 (0, 0)

/-- One sovereign state, the United Kingdom. -/
def c8sovs : List SovereignState := [⟨"united_kingdom", "United Kingdom"⟩]

/-- Two countries: Scotland, a territory of the United Kingdom, and a
duplicate United Kingdom row that the second pass must skip. -/
def c8countries : List Country :=
  [⟨"scotland", "Scotland", "united_kingdom"⟩,
   ⟨"united_kingdom", "United Kingdom", "united_kingdom"⟩]

/-- Integer parser stand-in recognising only the string 7. -/
def atoiFixed : String → Option Int := fun s => if s = "7" then some 7 else none

/-- Float parser stand-in recognising only the string 3. -/
def parseFloatFixed : String → Option ℚ :=
  fun s => if s = "3" then some 3 else none

/-! Helper lemmas. -/

/-- Empty geometry never contains a point. -/
theorem isPointInGeometry_empty (unmarshal : String → Option OrbGeometry)
    (lat lon : ℚ) : isPointInGeometry unmarshal lat lon "" = false := rfl

/-! Claim theorems. -/

/-- C1: for every point and every tier collection whose documents have
bounds that are conservative for the geometry kernel (a point contained
in a geometry is inside the bounds rectangle), the two-stage resolver
`findContainingEntities` — bounds pre-filter, then exact
point-in-polygon — returns exactly the active documents whose geometry
contains the point, as computed by a direct scan: the bounds index only
filters, it never adds or classifies matches. -/
theorem findContainingEntities_eq_bruteForce
    (unmarshal : String → Option OrbGeometry)
    (collection : List TierDoc) (lat lon : ℚ)
    (hcons : ∀ d ∈ collection,
        isPointInGeometry unmarshal lat lon d.geometry = true →
        boundsContain d.bounds lat lon = true) :
    findContainingEntities unmarshal (.ok collection) lat lon
      = bruteForceContaining unmarshal collection lat lon := by
  have hred : findContainingEntities unmarshal (.ok collection) lat lon
      = (queryByBounds collection lat lon).filter
          (fun d => d.geometry != "" && isPointInGeometry unmarshal lat lon d.geometry) := rfl
  rw [hred]
  unfold bruteForceContaining queryByBounds
  rw [List.filter_filter]
  apply List.filter_congr
  intro d hd
  cases hp : isPointInGeometry unmarshal lat lon d.geometry with
  | false => simp [hp]
  | true =>
    have hb := hcons d hd hp
    have hne : (d.geometry != "") = true := by
      rw [bne_iff_ne]
      intro h
      rw [h] at hp
      simp [isPointInGeometry] at hp
    simp [hp, hb, hne]

/-- C1 witness: on a concrete fixture of four documents the hypotheses
hold and the two resolvers agree. -/
theorem findContainingEntities_eq_bruteForce_witness :
    (∀ d ∈ c1docs, isPointInGeometry c1unmarshal 5 5 d.geometry = true →
        boundsContain d.bounds 5 5 = true) ∧
    findContainingEntities c1unmarshal (.ok c1docs) 5 5
      = bruteForceContaining c1unmarshal c1docs 5 5 := by
  have h : ∀ d ∈ c1docs, isPointInGeometry c1unmarshal 5 5 d.geometry = true →
      boundsContain d.bounds 5 5 = true := by
    intro d hd
    simp only [c1docs, List.mem_cons, List.not_mem_nil, or_false] at hd
    rcases hd with h | h | h | h
    · subst h; intro hpip; norm_num [boundsContain]
    · subst h; intro hpip; norm_num [boundsContain]
    · subst h; simp [isPointInGeometry, c1unmarshal]
    · subst h; simp [isPointInGeometry, c1unmarshal]
  exact ⟨h, findContainingEntities_eq_bruteForce c1unmarshal c1docs 5 5 h⟩

/-- C2: the source `isPointOnLand` reports land from the bounds
rectangle alone.  At the failing input — one active land polygon whose
bounds span 0..10 but whose geometry is a small triangle missing the
point (5,5) — the code answers `is_land = true` although the exact
point-in-polygon test on the stored geometry answers false. -/
theorem isPointOnLand_bounds_only :
    isPointOnLand (.ok [c2doc]) 5 5 = .ok true ∧
    isPointInGeometry c2unmarshal 5 5 "tri" = false := by
  constructor
  · norm_num [isPointOnLand, c2doc, boundsContain]
  · norm_num [isPointInGeometry, c2unmarshal]

/-- C3 counterexample: a two-point batch-classify request with one valid
and one out-of-range point is answered with a 200 whose results array
holds a successful classification next to a per-point error entry, so
the response is not all-or-nothing. -/
theorem batchClassify_mixed_counterexample :
    batchClassifyHandler hav0 c3land c3coast (some c3points) = .ok c3entries ∧
    BatchEntry.classified "land" 5 "1x1km" ∈ c3entries ∧
    BatchEntry.failure "Invalid coordinates" ∈ c3entries := by
  refine ⟨?_, by simp [c3entries], by simp [c3entries]⟩
  norm_num [batchClassifyHandler, c3points, c3entries, classifyEntryOf,
    classifyPoint, isPointOnLand, c3land, c3coast, calculateDistanceToCoast,
    coastStep, boundsContain, determineGridResolution, hav0]

/-- C3 amended: batch-lookup is all-or-nothing — a decodable request is
always fully processed — while batch-classify is not: an accepted batch
(between 1 and 1000 points) is always answered with a 200 carrying one
entry per point, where individually invalid or failed points yield
per-point error entries alongside successful ones. -/
theorem batch_endpoints_partial_amended :
    (∀ pts : List PointLookup,
        batchLookupBoundariesHandler (some pts) = .ok (pts.map enrichPoint)) ∧
    (∀ (hav : ℚ → ℚ → ℚ → ℚ → ℚ) landQuery coastQuery (pts : List (ℚ × ℚ)),
        0 < pts.length → pts.length ≤ 1000 →
        batchClassifyHandler hav landQuery coastQuery (some pts)
          = .ok (pts.map (classifyEntryOf hav landQuery coastQuery))) := by
  constructor
  · intro pts; rfl
  · intro hav lq cq pts h1 h2
    have h0 : ¬ pts.length = 0 := by omega
    have h3 : ¬ pts.length > 1000 := by omega
    simp [batchClassifyHandler, h0, h3]

/-- C3 amended witness: the mixed batch of the counterexample satisfies
the size hypotheses and is fully processed. -/
theorem batch_endpoints_partial_amended_witness :
    batchLookupBoundariesHandler (some [⟨0, 0, "sq_a"⟩])
      = .ok ([(⟨0, 0, "sq_a"⟩ : PointLookup)].map enrichPoint) ∧
    (0 < c3points.length ∧ c3points.length ≤ 1000 ∧
      batchClassifyHandler hav0 c3land c3coast (some c3points)
        = .ok (c3points.map (classifyEntryOf hav0 c3land c3coast))) :=
  ⟨batch_endpoints_partial_amended.1 _,
   by simp [c3points],
   by simp [c3points],
   batch_endpoints_partial_amended.2 hav0 c3land c3coast c3points
     (by simp [c3points]) (by simp [c3points])⟩

/-- C4: the bulk enrichment endpoint processes the decoded points in
order: the output list has the same length as the input and the result
at every index carries the square id of the input point at that
index. -/
theorem batchLookup_preserves_order (pts : List PointLookup) :
    batchLookupBoundariesHandler (some pts) = .ok (pts.map enrichPoint) ∧
    (pts.map enrichPoint).length = pts.length ∧
    (pts.map enrichPoint).map SquareEnrichment.square_id
      = pts.map PointLookup.square_id := by
  refine ⟨rfl, by simp, ?_⟩
  induction pts with
  | nil => rfl
  | cons p ps ih => simp [ih, enrichPoint]

/-- C5: the grid resolution is a total function of the land flag and
the coastline distance: land yields 1x1km, ocean more than 1000 km from
the coast yields 100x100km, ocean at most 1000 km from the coast yields
10x10km. -/
theorem determineGridResolution_cases :
    (∀ d : ℚ, determineGridResolution true d = "1x1km") ∧
    (∀ d : ℚ, d > 1000 → determineGridResolution false d = "100x100km") ∧
    (∀ d : ℚ, d ≤ 1000 → determineGridResolution false d = "10x10km") := by
  refine ⟨fun d => rfl, fun d h => ?_, fun d h => ?_⟩
  · simp [determineGridResolution, h]
  · simp [determineGridResolution, not_lt.mpr h]

/-- C5 witness: the three cases evaluated at 5 km on land, 2000 km at
sea and 5 km at sea. -/
theorem determineGridResolution_cases_witness :
    determineGridResolution true 5 = "1x1km" ∧
    ((2000 : ℚ) > 1000 ∧ determineGridResolution false 2000 = "100x100km") ∧
    ((5 : ℚ) ≤ 1000 ∧ determineGridResolution false 5 = "10x10km") :=
  ⟨determineGridResolution_cases.1 5,
   ⟨by norm_num, determineGridResolution_cases.2.1 2000 (by norm_num)⟩,
   ⟨by norm_num, determineGridResolution_cases.2.2 5 (by norm_num)⟩⟩

/-- C6 counterexample: latitude 999 is outside the valid range, yet the
containing-boundaries handler answers it with a 200 after running the
resolver (here over empty collections), not with a 400. -/
theorem boundariesContaining_out_of_range :
    (999 : ℚ) > 90 ∧
    getBoundariesContainingHandler noParse (.ok []) (.ok []) (.ok []) (.ok [])
        (some 999) (some 0) = .ok ⟨999, 0, [], 0⟩ := by
  exact ⟨by norm_num, rfl⟩

/-- C6 amended: the containing-boundaries handler rejects only
latitude or longitude values that fail float parsing (400); any parsed
pair, with no range check, is resolved against the four tiers and
answered with a 200. -/
theorem boundariesContaining_amended (unmarshal : String → Option OrbGeometry)
    (sovereigns countries mapUnits mapSubunits : Except String (List TierDoc)) :
    (∀ lonParam, getBoundariesContainingHandler unmarshal sovereigns countries
        mapUnits mapSubunits none lonParam = .badRequest "Invalid lat parameter") ∧
    (∀ lat : ℚ, getBoundariesContainingHandler unmarshal sovereigns countries
        mapUnits mapSubunits (some lat) none = .badRequest "Invalid lon parameter") ∧
    (∀ lat lon : ℚ, getBoundariesContainingHandler unmarshal sovereigns countries
        mapUnits mapSubunits (some lat) (some lon)
      = .ok ⟨lat, lon,
          containingGroups unmarshal sovereigns countries mapUnits mapSubunits lat lon,
          (containingGroups unmarshal sovereigns countries mapUnits mapSubunits lat lon).length⟩) :=
  ⟨fun _ => rfl, fun _ => rfl, fun _ _ => rfl⟩

/-- C7: the batch-classify endpoint accepts at most 1000 points: a
batch of exactly 1000 points is processed point by point, and a larger
batch fails with a 400 whose outcome does not depend on the stores, so
no point is classified. -/
theorem batchClassify_size_limit (hav : ℚ → ℚ → ℚ → ℚ → ℚ)
    (landQuery : Except String (List LandDoc))
    (coastQuery : Except String (List CoastDoc)) (pts : List (ℚ × ℚ)) :
    (pts.length = 1000 →
      batchClassifyHandler hav landQuery coastQuery (some pts)
        = .ok (pts.map (classifyEntryOf hav landQuery coastQuery))) ∧
    (pts.length > 1000 →
      batchClassifyHandler hav landQuery coastQuery (some pts)
        = .badRequest "Too many points (max 1000)") := by
  constructor
  · intro h
    have h0 : ¬ pts.length = 0 := by omega
    have h3 : ¬ pts.length > 1000 := by omega
    simp [batchClassifyHandler, h0, h3]
  · intro h
    have h0 : ¬ pts.length = 0 := by omega
    simp [batchClassifyHandler, h0, h]

/-- C7 witness: a replicated batch of exactly 1000 origin points is
processed, and one of 1001 points is rejected. -/
theorem batchClassify_size_limit_witness :
    (wpts1000.length = 1000 ∧
      batchClassifyHandler hav0 (.ok []) (.ok []) (some wpts1000)
        = .ok (wpts1000.map (classifyEntryOf hav0 (.ok []) (.ok [])))) ∧
    (wpts1001.length > 1000 ∧
      batchClassifyHandler hav0 (.ok []) (.ok []) (some wpts1001)
        = .badRequest "Too many points (max 1000)") :=
  ⟨⟨List.length_replicate 1000 (0, 0),
    (batchClassify_size_limit hav0 (.ok []) (.ok []) wpts1000).1
      (List.length_replicate 1000 (0, 0))⟩,
   ⟨by simp only [wpts1001, List.length_replicate]; norm_num,
    (batchClassify_size_limit hav0 (.ok []) (.ok []) wpts1001).2
      (by simp only [wpts1001, List.length_replicate]; norm_num)⟩⟩

/-- C9: when the land-polygon test succeeds but the coastline distance
computation fails, `classifyPoint` does not propagate the error: it
returns the land verdict with the fabricated default distance of 10 km,
and an error can surface from `classifyPoint` only when the land test
itself has failed. -/
theorem classifyPoint_default_distance :
    (∀ (hav : ℚ → ℚ → ℚ → ℚ → ℚ) landQuery coastQuery (lat lon : ℚ)
        (isLand : Bool) (e : String),
        isPointOnLand landQuery lat lon = .ok isLand →
        calculateDistanceToCoast hav coastQuery lat lon = .error e →
        classifyPoint hav landQuery coastQuery lat lon = .ok (isLand, 10)) ∧
    (∀ (hav : ℚ → ℚ → ℚ → ℚ → ℚ) landQuery coastQuery (lat lon : ℚ) (e : String),
        classifyPoint hav landQuery coastQuery lat lon = .error e →
        ∃ e2, isPointOnLand landQuery lat lon = .error e2) := by
  constructor
  · intro hav lq cq lat lon isLand e h1 h2
    simp [classifyPoint, h1, h2]
  · intro hav lq cq lat lon e h
    unfold classifyPoint at h
    cases hLand : isPointOnLand lq lat lon with
    | error e2 => exact ⟨e2, rfl⟩
    | ok b =>
      rw [hLand] at h
      cases hC : calculateDistanceToCoast hav cq lat lon with
      | error e3 => rw [hC] at h; simp at h
      | ok p => obtain ⟨d, pt⟩ := p; rw [hC] at h; simp at h

/-- C9 witness: with no coastline documents the distance computation
fails, so a successful land test at the origin yields the 10 km default,
and a classification error is exhibited only alongside a failed land
query. -/
theorem classifyPoint_default_distance_witness :
    (isPointOnLand (.ok []) 0 0 = .ok false ∧
      calculateDistanceToCoast hav0 (.ok []) 0 0 = .error "no coastlines found" ∧
      classifyPoint hav0 (.ok []) (.ok []) 0 0 = .ok (false, 10)) ∧
    (classifyPoint hav0 (.error "land query failed") (.ok []) 0 0
        = .error "no coastlines found" ∧
      ∃ e2, isPointOnLand (.error "land query failed") 0 0 = .error e2) :=
  ⟨⟨rfl, rfl,
    classifyPoint_default_distance.1 hav0 (.ok []) (.ok []) 0 0 false
      "no coastlines found" rfl rfl⟩,
   ⟨rfl,
    classifyPoint_default_distance.2 hav0 (.error "land query failed") (.ok [])
      0 0 "no coastlines found" rfl⟩⟩

/-- The first pass of `getBulkCountriesHandler` appends one row and one
processed id per sovereign state. -/
theorem bulk_first_pass (sovs : List SovereignState)
    (a : List BulkEntry) (b : List String) :
    sovs.foldl (fun acc s => (acc.1 ++ [sovereignEntry s], acc.2 ++ [s.id])) (a, b)
      = (a ++ sovs.map sovereignEntry, b ++ sovs.map SovereignState.id) := by
  induction sovs generalizing a b with
  | nil => simp
  | cons s rest ih =>
    simp only [List.foldl_cons, List.map_cons]
    rw [ih]
    simp

/-- The second pass of `getBulkCountriesHandler` preserves the
correspondence between emitted rows and processed ids: it appends rows
for a subset of the countries, every country id ends up emitted, and no
id is emitted twice when the initial ids were distinct. -/
theorem bulk_second_pass (sovs : List SovereignState) :
    ∀ (countries : List Country) (a : List BulkEntry) (b : List String),
      b = a.map BulkEntry.id →
      ∃ extra : List BulkEntry,
        countries.foldl (bulkStep sovs) (a, b)
          = (a ++ extra, (a ++ extra).map BulkEntry.id) ∧
        (∀ e ∈ extra, ∃ c, c ∈ countries ∧ e = countryEntry sovs c) ∧
        (∀ c ∈ countries, c.id ∈ (a ++ extra).map BulkEntry.id) ∧
        (b.Nodup → ((a ++ extra).map BulkEntry.id).Nodup) := by
  intro countries
  induction countries with
  | nil =>
    intro a b hb
    refine ⟨[], ?_, by simp, by simp, ?_⟩
    · simp [hb]
    · intro hnd
      simp only [List.append_nil]
      exact hb ▸ hnd
  | cons c cs ih =>
    intro a b hb
    by_cases hc : c.id ∈ b
    · have hstep : bulkStep sovs (a, b) c = (a, b) := by simp [bulkStep, hc]
      rw [List.foldl_cons, hstep]
      obtain ⟨extra, heq, hmem, hcid, hnd⟩ := ih a b hb
      refine ⟨extra, heq, ?_, ?_, hnd⟩
      · intro e he
        obtain ⟨c2, hc2, he2⟩ := hmem e he
        exact ⟨c2, List.mem_cons_of_mem _ hc2, he2⟩
      · intro c2 hc2
        rcases List.mem_cons.mp hc2 with h | h
        · subst h
          rw [hb] at hc
          rw [List.map_append]
          exact List.mem_append_left _ hc
        · exact hcid c2 h
    · have hstep : bulkStep sovs (a, b) c
          = (a ++ [countryEntry sovs c], b ++ [c.id]) := by
        simp [bulkStep, hc]
      rw [List.foldl_cons, hstep]
      have hb2 : b ++ [c.id] = (a ++ [countryEntry sovs c]).map BulkEntry.id := by
        rw [List.map_append, hb]
        rfl
      obtain ⟨extra, heq, hmem, hcid, hnd⟩ :=
        ih (a ++ [countryEntry sovs c]) (b ++ [c.id]) hb2
      refine ⟨countryEntry sovs c :: extra, ?_, ?_, ?_, ?_⟩
      · rw [heq]
        simp [List.append_assoc]
      · intro e he
        rcases List.mem_cons.mp he with h | h
        · exact ⟨c, List.mem_cons_self c cs, h⟩
        · obtain ⟨c2, hc2, he2⟩ := hmem e h
          exact ⟨c2, List.mem_cons_of_mem _ hc2, he2⟩
      · intro c2 hc2
        rcases List.mem_cons.mp hc2 with h | h
        · subst h
          rw [List.map_append]
          apply List.mem_append_right
          exact List.mem_cons_self _ _
        · have hin := hcid c2 h
          simpa [List.append_assoc] using hin
      · intro hbnd
        have hnd2 : (b ++ [c.id]).Nodup := by
          simp [List.nodup_append, hbnd, hc]
        have hres := hnd hnd2
        simpa [List.append_assoc] using hres

/-- C8: the bulk countries catalog first emits one row per active
sovereign state — never a territory, with a null sovereign state name —
then appends rows only for countries whose id was not yet emitted, with
the territory flag and resolved sovereign state name of `countryEntry`;
every country id appears in the output, and when the sovereign ids are
distinct (they are unique within the collection) no id appears more
than once. -/
theorem bulkCountries_dedup (sovs : List SovereignState)
    (countries : List Country)
    (hids : (sovs.map SovereignState.id).Nodup) :
    (bulkCountries sovs countries).take sovs.length = sovs.map sovereignEntry ∧
    (∀ s : SovereignState, (sovereignEntry s).is_territory = false ∧
        (sovereignEntry s).sovereign_state_name = none) ∧
    (∀ e ∈ (bulkCountries sovs countries).drop sovs.length,
        ∃ c, c ∈ countries ∧ e = countryEntry sovs c) ∧
    (∀ c ∈ countries, c.id ∈ (bulkCountries sovs countries).map BulkEntry.id) ∧
    ((bulkCountries sovs countries).map BulkEntry.id).Nodup := by
  obtain ⟨extra, heq, hmem, hcid, hnd⟩ :=
    bulk_second_pass sovs countries (sovs.map sovereignEntry)
      (sovs.map SovereignState.id) (by simp only [List.map_map]; rfl)
  have hbc : bulkCountries sovs countries = sovs.map sovereignEntry ++ extra := by
    unfold bulkCountries
    rw [bulk_first_pass]
    simp only [List.nil_append]
    rw [heq]
  refine ⟨?_, fun s => ⟨rfl, rfl⟩, ?_, ?_, ?_⟩
  · rw [hbc]
    have htake := List.take_left (sovs.map sovereignEntry) extra
    rwa [List.length_map] at htake
  · rw [hbc]
    intro e he
    have hdrop : (sovs.map sovereignEntry ++ extra).drop sovs.length = extra := by
      have hdl := List.drop_left (sovs.map sovereignEntry) extra
      rwa [List.length_map] at hdl
    rw [hdrop] at he
    exact hmem e he
  · rw [hbc]
    exact hcid
  · rw [hbc]
    exact hnd hids

/-- C8 witness: the United Kingdom fixture — one sovereign state and two
countries, Scotland and a duplicate United Kingdom row — satisfies the
distinct-ids hypothesis and all five conclusions. -/
theorem bulkCountries_dedup_witness :
    (c8sovs.map SovereignState.id).Nodup ∧
    ((bulkCountries c8sovs c8countries).take c8sovs.length
        = c8sovs.map sovereignEntry ∧
      (∀ s : SovereignState, (sovereignEntry s).is_territory = false ∧
          (sovereignEntry s).sovereign_state_name = none) ∧
      (∀ e ∈ (bulkCountries c8sovs c8countries).drop c8sovs.length,
          ∃ c, c ∈ c8countries ∧ e = countryEntry c8sovs c) ∧
      (∀ c ∈ c8countries,
          c.id ∈ (bulkCountries c8sovs c8countries).map BulkEntry.id) ∧
      ((bulkCountries c8sovs c8countries).map BulkEntry.id).Nodup) := by
  have h : (c8sovs.map SovereignState.id).Nodup := by simp [c8sovs]
  exact ⟨h, bulkCountries_dedup c8sovs c8countries h⟩

/-- C10: numeric query-parameter parsing is total and never rejects a
request: an absent parameter or one the integer or float parser refuses
falls back to the supplied default, and a parsable value is returned
as parsed. -/
theorem queryParam_defaults :
    (∀ (atoi : String → Option Int) (d : Int), getIntQueryParam atoi "" d = d) ∧
    (∀ (atoi : String → Option Int) (v : String) (d : Int),
        atoi v = none → getIntQueryParam atoi v d = d) ∧
    (∀ (atoi : String → Option Int) (v : String) (d n : Int),
        v ≠ "" → atoi v = some n → getIntQueryParam atoi v d = n) ∧
    (∀ (parseFloat : String → Option ℚ) (d : ℚ), getFloatQueryParam parseFloat "" d = d) ∧
    (∀ (parseFloat : String → Option ℚ) (v : String) (d : ℚ),
        parseFloat v = none → getFloatQueryParam parseFloat v d = d) ∧
    (∀ (parseFloat : String → Option ℚ) (v : String) (d x : ℚ),
        v ≠ "" → parseFloat v = some x → getFloatQueryParam parseFloat v d = x) := by
  refine ⟨fun atoi d => rfl, ?_, ?_, fun pf d => rfl, ?_, ?_⟩
  · intro atoi v d h
    by_cases hv : v = "" <;> simp [getIntQueryParam, hv, h]
  · intro atoi v d n hv h
    simp [getIntQueryParam, hv, h]
  · intro pf v d h
    by_cases hv : v = "" <;> simp [getFloatQueryParam, hv, h]
  · intro pf v d x hv h
    simp [getFloatQueryParam, hv, h]

/-- C10 witness: the six cases at concrete parsers and values. -/
theorem queryParam_defaults_witness :
    getIntQueryParam atoiFixed "" 50 = 50 ∧
    (atoiFixed "abc" = none ∧ getIntQueryParam atoiFixed "abc" 50 = 50) ∧
    ("7" ≠ "" ∧ atoiFixed "7" = some 7 ∧ getIntQueryParam atoiFixed "7" 50 = 7) ∧
    getFloatQueryParam parseFloatFixed "" 1000 = 1000 ∧
    (parseFloatFixed "abc" = none ∧
      getFloatQueryParam parseFloatFixed "abc" 1000 = 1000) ∧
    ("3" ≠ "" ∧ parseFloatFixed "3" = some 3 ∧
      getFloatQueryParam parseFloatFixed "3" 1000 = 3) :=
  ⟨queryParam_defaults.1 atoiFixed 50,
   ⟨by decide, queryParam_defaults.2.1 atoiFixed "abc" 50 (by decide)⟩,
   ⟨by decide, by decide,
    queryParam_defaults.2.2.1 atoiFixed "7" 50 7 (by decide) (by decide)⟩,
   queryParam_defaults.2.2.2.1 parseFloatFixed 1000,
   ⟨rfl, queryParam_defaults.2.2.2.2.1 parseFloatFixed "abc" 1000 rfl⟩,
   ⟨by decide, rfl,
    queryParam_defaults.2.2.2.2.2 parseFloatFixed "3" 1000 3 (by decide) rfl⟩⟩

end Statlas
